import Mathlib

/-!
Shallow embedding of `ons_geoportal/api.py`.

The module downloads boundary data from the ONS Open Geography Portal.
Pure data flow is modelled directly; the single HTTP request made by
`get_boundaries` is modelled by passing the HTTP layer as a function
argument (`http`), and the result of `get_boundaries` is paired with the
number of HTTP requests actually performed, so that statements such as
"fails before any network request" and "does not retry" are expressible.
Python `raise ValueError(...)` / `response.raise_for_status()` become an
`Except ApiError` result.
-/

namespace OnsGeoportal

/-- The `cols` argument of `get_boundaries`: a Python `str` or `list` value. -/
inductive Cols where
  | str (s : String)
  | list (l : List String)
deriving DecidableEq, Repr

/-- A value stored in the query-parameter dictionary built by `_format_params`
(Python dict values there are either strings or the int `crs`). -/
inductive PValue where
  | s (v : String)
  | i (v : Int)
deriving DecidableEq, Repr

/-- Errors raised by the module: `ValueError msg`, an HTTP error from
`raise_for_status` carrying the status code, or a failure to read the
`features` member of the response JSON. -/
inductive ApiError where
  | valueError (msg : String)
  | httpError (status : Nat)
  | jsonError
deriving DecidableEq, Repr

/-- An HTTP response: its status code and, when the body is JSON with a
`features` member, that features array (features are left abstract in `α`). -/
structure HttpResponse (α : Type) where
  status : Nat
  features : Option (List α)
deriving DecidableEq, Repr

/-- The value built by `geopandas.GeoDataFrame.from_features(features, crs=crs)`:
a feature collection tagged with a CRS. -/
structure GeoDataFrame (α : Type) where
  features : List α
  crs : Int
deriving DecidableEq, Repr

/-- Python `repr` of a list of strings, as interpolated into f-strings
(`\x27` is the single-quote character). -/
def pyReprStrs (l : List String) : String :=
  "[" ++ String.intercalate ", " (l.map (fun s => "\x27" ++ s ++ "\x27")) ++ "]"

/-- Python `repr` of a list of ints, as interpolated into f-strings. -/
def pyReprInts (l : List Int) : String :=
  "[" ++ String.intercalate ", " (l.map toString) ++ "]"

/-- Python `str.lower()` (ASCII case folding, applied character-wise, which
is what it does on the ASCII field and column names this module handles). -/
def pyLower (s : String) : String :=
  String.mk (s.data.map Char.toLower)

/-- `census_types` in `get_boundaries`. -/
def census_types : List String := ["lsoa"]

/-- `admin_types` in `get_boundaries`. -/
def admin_types : List String := ["lad"]

/-- `epsg` in `get_boundaries`. -/
def epsg : List Int := [4326, 3857, 27700]

/-- The `fields` list returned by `_get_census_boundaries`. -/
def censusFields : List String :=
  ["objectid", "lsoa11cd", "lsoa11nm", "shape", "st_area", "st_length"]

/-- The `fields` list returned by `_get_admin_boundaries`. -/
def adminFields : List String :=
  ["objectid", "lad18cd", "lad18nm", "shape", "st_area", "st_length"]

/-- Message of the `ValueError` raised inside `_get_census_boundaries`. -/
def censusGeomMsg : String := "Only " ++ pyReprStrs ["lsoa"] ++ " are supported"

/-- Message of the `ValueError` raised inside `_get_admin_boundaries`. -/
def adminGeomMsg : String := "Only " ++ pyReprStrs ["lad"] ++ " are supported"

/-- `_get_census_boundaries`. -/
def _get_census_boundaries (geom_type : String) :
    Except ApiError (String × String × List String) :=
  if geom_type = "lsoa" then
    Except.ok ("Census_Boundaries/",
      "Lower_Super_Output_Areas_December_2011_Boundaries/", censusFields)
  else
    Except.error (ApiError.valueError censusGeomMsg)

/-- `_get_admin_boundaries`. -/
def _get_admin_boundaries (geom_type : String) :
    Except ApiError (String × String × List String) :=
  if geom_type = "lad" then
    Except.ok ("Administrative_Boundaries/",
      "Local_Authority_Districts_December_2018_Boundaries_UK_BGC/", adminFields)
  else
    Except.error (ApiError.valueError adminGeomMsg)

/-- `layer_types` in `_check_layer_types`. -/
def layer_types : List String :=
  ["full clipped", "full extent", "generalised clipped", "super generalised clipped"]

/-- Message of the `ValueError` raised by `_check_layer_types`. -/
def layerErrMsg : String := "Only layer types " ++ pyReprStrs layer_types ++ " are supported"

/-- `_check_layer_types`: the if/elif chain comparing against
`layer_types[0] .. layer_types[3]`. -/
def _check_layer_types (layer_type : String) : Except ApiError Nat :=
  if layer_type = "full clipped" then Except.ok 0
  else if layer_type = "full extent" then Except.ok 1
  else if layer_type = "generalised clipped" then Except.ok 2
  else if layer_type = "super generalised clipped" then Except.ok 3
  else Except.error (ApiError.valueError layerErrMsg)

/-- Message of the `ValueError` raised by `_format_params` for bad columns. -/
def colsErrMsg (fields : List String) : String :=
  "Only " ++ pyReprStrs fields ++ " are supported for geometry type"

/-- The dictionary literal returned by `_format_params`, in source order. -/
def mkParams (outFields whereCl : String) (crs precision : Int) :
    List (String × PValue) :=
  [("outFields", PValue.s outFields),
   ("where", PValue.s whereCl),
   ("outSR", PValue.i crs),
   ("f", PValue.s "geojson"),
   ("geometryPrecision", PValue.s (toString precision))]

/-- `_format_params`: lowercases a string `cols` and rewrites `"all"` to `"*"`;
lowercases the elements of a list `cols`, checks them against `fields` and
joins them with `", "`. -/
def _format_params (cols : Cols) (fields : List String) (whereCl : String)
    (crs precision : Int) : Except ApiError (List (String × PValue)) :=
  match cols with
  | Cols.str s =>
      let s := pyLower s
      let s := if s = "all" then "*" else s
      Except.ok (mkParams s whereCl crs precision)
  | Cols.list l =>
      let l := l.map pyLower
      if l.all (fun c => fields.contains c) then
        Except.ok (mkParams (String.intercalate ", " l) whereCl crs precision)
      else
        Except.error (ApiError.valueError (colsErrMsg fields))

/-- Message of the geometry-type `ValueError` raised by `get_boundaries`
(the `\x7b...\x7d` interpolations joined across the source line continuation,
which contributes the 13 blanks). -/
def geomErrMsg : String :=
  "Only the following census types: " ++ pyReprStrs census_types ++
    "             and administrative types: " ++ pyReprStrs admin_types ++
    " are supported"

/-- Message of the crs `ValueError` raised by `get_boundaries`. -/
def crsErrMsg : String :=
  "Only the following " ++ pyReprInts epsg ++ " codes are supported"

/-- Message of the precision `ValueError` raised by `get_boundaries`. -/
def precisionErrMsg : String :=
  "Geometry precisions only accepts values between 1 and 8"

/-- The geometry-type dispatch at the top of `get_boundaries`:
`if geom_type in census_types ... elif geom_type in admin_types ... else raise`. -/
def resolve_geom (geom_type : String) :
    Except ApiError (String × String × List String) :=
  if census_types.contains geom_type then _get_census_boundaries geom_type
  else if admin_types.contains geom_type then _get_admin_boundaries geom_type
  else Except.error (ApiError.valueError geomErrMsg)

/-- The URL built by `get_boundaries` for the request. -/
def requestUrl (boundary geom : String) (layer : Nat) : String :=
  "https://ons-inspire.esriuk.com/arcgis/rest/services/" ++ boundary ++ geom ++
    "MapServer/" ++ toString layer ++ "/query"

/-- `get_boundaries`: geometry dispatch, layer check, crs check
(`crs not in epsg`), precision check (`precision not in range(1, 8)`, i.e.
an integer in 1..7), `_format_params` (evaluated before the request is
performed, since it is an argument of `get`), then the single HTTP request,
`raise_for_status` (an error for statuses in 400..599), and
`GeoDataFrame.from_features(response.json()["features"], crs=crs)`.
The second component counts HTTP requests performed. -/
def get_boundaries {α : Type} (geom_type layer_type : String) (cols : Cols)
    (whereCl : String) (crs precision : Int)
    (http : String → List (String × PValue) → HttpResponse α) :
    Except ApiError (GeoDataFrame α) × Nat :=
  match resolve_geom geom_type with
  | Except.error e => (Except.error e, 0)
  | Except.ok (boundary, geom, fields) =>
    match _check_layer_types layer_type with
    | Except.error e => (Except.error e, 0)
    | Except.ok layer =>
      if epsg.contains crs then
        if 1 ≤ precision ∧ precision ≤ 7 then
          match _format_params cols fields whereCl crs precision with
          | Except.error e => (Except.error e, 0)
          | Except.ok params =>
            let response := http (requestUrl boundary geom layer) params
            if 400 ≤ response.status ∧ response.status < 600 then
              (Except.error (ApiError.httpError response.status), 1)
            else
              match response.features with
              | some fs => (Except.ok ⟨fs, crs⟩, 1)
              | none => (Except.error ApiError.jsonError, 1)
        else
          (Except.error (ApiError.valueError precisionErrMsg), 0)
      else
        (Except.error (ApiError.valueError crsErrMsg), 0)

/-- Whether the `cols` argument passes the column validation in
`_format_params` (a string always does; a list must lowercase into `fields`). -/
def colsOk (cols : Cols) (fields : List String) : Bool :=
  match cols with
  | Cols.str _ => true
  | Cols.list l => (l.map pyLower).all (fun c => fields.contains c)

/-! ### Theorems -/

/-- Helper: `_format_params` succeeds exactly when `colsOk` holds. -/
theorem format_params_ok_of_colsOk (cols : Cols) (fields : List String)
    (whereCl : String) (crs precision : Int) (h : colsOk cols fields = true) :
    ∃ p, _format_params cols fields whereCl crs precision = Except.ok p := by
  cases cols with
  | str s => exact ⟨_, rfl⟩
  | list l =>
    simp only [colsOk] at h
    exact ⟨_, by simp only [_format_params]; rw [if_pos h]⟩

/-- C2: `resolve_geom` maps `"lsoa"` to the census path-segment pair with the
census field list, `"lad"` to the administrative pair with the administrative
field list, and any other geometry-type string to an unsupported-geometry-type
`ValueError` whose message names both supported sets. -/
theorem resolve_geom_spec :
    resolve_geom "lsoa" = Except.ok ("Census_Boundaries/",
      "Lower_Super_Output_Areas_December_2011_Boundaries/", censusFields)
    ∧ resolve_geom "lad" = Except.ok ("Administrative_Boundaries/",
      "Local_Authority_Districts_December_2018_Boundaries_UK_BGC/", adminFields)
    ∧ (∀ g : String, g ≠ "lsoa" → g ≠ "lad" →
        resolve_geom g = Except.error (ApiError.valueError geomErrMsg))
    ∧ geomErrMsg = "Only the following census types: [\x27lsoa\x27]             and administrative types: [\x27lad\x27] are supported" := by
  refine ⟨rfl, rfl, ?_, by decide⟩
  intro g h1 h2
  simp [resolve_geom, census_types, admin_types, h1, h2]

/-- Witness for C2 at the concrete unsupported geometry type `"msoa"`. -/
theorem resolve_geom_spec_witness :
    resolve_geom "msoa" = Except.error (ApiError.valueError geomErrMsg) :=
  resolve_geom_spec.2.2.1 "msoa" (by decide) (by decide)

/-- C3: `_check_layer_types` maps the four labels to indices 0, 1, 2, 3 in
their fixed order, and any other label to an unsupported-layer-type
`ValueError`. -/
theorem check_layer_types_spec :
    _check_layer_types "full clipped" = Except.ok 0
    ∧ _check_layer_types "full extent" = Except.ok 1
    ∧ _check_layer_types "generalised clipped" = Except.ok 2
    ∧ _check_layer_types "super generalised clipped" = Except.ok 3
    ∧ (∀ s : String, s ∉ layer_types →
        _check_layer_types s = Except.error (ApiError.valueError layerErrMsg)) := by
  refine ⟨rfl, rfl, rfl, rfl, ?_⟩
  intro s h
  simp only [layer_types, List.mem_cons, List.not_mem_nil, or_false, not_or] at h
  simp [_check_layer_types, h.1, h.2.1, h.2.2.1, h.2.2.2]

/-- Witness for C3 at the concrete unsupported label `"clipped"`. -/
theorem check_layer_types_spec_witness :
    _check_layer_types "clipped" = Except.error (ApiError.valueError layerErrMsg) :=
  check_layer_types_spec.2.2.2.2 "clipped" (by decide)

/-- C5: for every string `cols` equal to `"all"` up to case, `_format_params`
succeeds and the mapping's `outFields` value is the wildcard `"*"`. -/
theorem format_params_all_spec (s : String) (fields : List String)
    (whereCl : String) (crs precision : Int) (h : pyLower s = "all") :
    _format_params (Cols.str s) fields whereCl crs precision
      = Except.ok (mkParams "*" whereCl crs precision)
    ∧ (mkParams "*" whereCl crs precision).lookup "outFields"
      = some (PValue.s "*") := by
  constructor
  · simp [_format_params, h]
  · rfl

/-- Witness for C5 at the concrete uppercase string `"ALL"`. -/
theorem format_params_all_spec_witness :
    _format_params (Cols.str "ALL") censusFields "1=1" 27700 5
      = Except.ok (mkParams "*" "1=1" 27700 5)
    ∧ (mkParams "*" "1=1" 27700 5).lookup "outFields" = some (PValue.s "*") :=
  format_params_all_spec "ALL" censusFields "1=1" 27700 5 (by decide)

/-- C6: for every explicit column list whose lowercased elements all belong to
`fields`, `_format_params` succeeds with `outFields` the lowercased names
joined by `", "`. -/
theorem format_params_list_spec (l fields : List String) (whereCl : String)
    (crs precision : Int)
    (h : (l.map pyLower).all (fun c => fields.contains c) = true) :
    _format_params (Cols.list l) fields whereCl crs precision
      = Except.ok (mkParams (String.intercalate ", " (l.map pyLower))
          whereCl crs precision) := by
  simp only [_format_params]
  rw [if_pos h]

/-- Witness for C6: the single column `["LSOA11CD"]` against the census fields
yields `outFields = "lsoa11cd"`. -/
theorem format_params_list_spec_witness :
    _format_params (Cols.list ["LSOA11CD"]) censusFields "1=1" 27700 5
      = Except.ok (mkParams (String.intercalate ", " (["LSOA11CD"].map pyLower))
          "1=1" 27700 5)
    ∧ String.intercalate ", " (["LSOA11CD"].map pyLower) = "lsoa11cd" :=
  ⟨format_params_list_spec ["LSOA11CD"] censusFields "1=1" 27700 5 (by decide),
   by decide⟩

/-- C10: for every string `cols` that is not `"all"` up to case,
`_format_params` succeeds with no membership check against `fields`: the
lowercased string is placed verbatim as `outFields`. -/
theorem format_params_str_not_all_spec (s : String) (fields : List String)
    (whereCl : String) (crs precision : Int) (h : pyLower s ≠ "all") :
    _format_params (Cols.str s) fields whereCl crs precision
      = Except.ok (mkParams (pyLower s) whereCl crs precision) := by
  simp [_format_params, h]

/-- Witness for C10: the string `"not_a_field"` is not a census field, yet
`_format_params` succeeds and places it verbatim. -/
theorem format_params_str_not_all_spec_witness :
    _format_params (Cols.str "not_a_field") censusFields "1=1" 27700 5
      = Except.ok (mkParams (pyLower "not_a_field") "1=1" 27700 5)
    ∧ censusFields.contains (pyLower "not_a_field") = false :=
  ⟨format_params_str_not_all_spec "not_a_field" censusFields "1=1" 27700 5 (by decide),
   by decide⟩

/-- C8: whenever `_format_params` succeeds, the mapping has exactly the five
keys `outFields, where, outSR, f, geometryPrecision` in that order, its
`where` value is the caller's filter expression verbatim, and its `f` value
is the fixed string `"geojson"`. -/
theorem format_params_keys_spec (cols : Cols) (fields : List String)
    (whereCl : String) (crs precision : Int) (params : List (String × PValue))
    (h : _format_params cols fields whereCl crs precision = Except.ok params) :
    params.map Prod.fst = ["outFields", "where", "outSR", "f", "geometryPrecision"]
    ∧ params.lookup "where" = some (PValue.s whereCl)
    ∧ params.lookup "f" = some (PValue.s "geojson") := by
  have hp : ∃ o, params = mkParams o whereCl crs precision := by
    cases cols with
    | str s =>
      simp only [_format_params, Except.ok.injEq] at h
      exact ⟨_, h.symm⟩
    | list l =>
      by_cases hb : (l.map pyLower).all (fun c => fields.contains c) = true
      · simp only [_format_params] at h
        rw [if_pos hb] at h
        simp only [Except.ok.injEq] at h
        exact ⟨_, h.symm⟩
      · simp only [_format_params] at h
        rw [if_neg hb] at h
        cases h
  obtain ⟨o, rfl⟩ := hp
  exact ⟨rfl, rfl, rfl⟩

/-- Witness for C8 at a concrete valid call. -/
theorem format_params_keys_spec_witness :
    (mkParams "*" "1=1" 27700 5).map Prod.fst
      = ["outFields", "where", "outSR", "f", "geometryPrecision"]
    ∧ (mkParams "*" "1=1" 27700 5).lookup "where" = some (PValue.s "1=1")
    ∧ (mkParams "*" "1=1" 27700 5).lookup "f" = some (PValue.s "geojson") :=
  format_params_keys_spec (Cols.str "all") censusFields "1=1" 27700 5
    (mkParams "*" "1=1" 27700 5) rfl

/-- C1: for every HTTP response with a success status whose body carries a
`features` array, `get_boundaries` performs one request and returns the
feature collection built from exactly that array, tagged with the caller's
`crs`, hence with the response's feature count. -/
theorem get_boundaries_success_spec {α : Type} (fs : List α) (status : Nat)
    (crs : Int) (hs : ¬ (400 ≤ status ∧ status < 600))
    (hcrs : epsg.contains crs = true) :
    get_boundaries "lsoa" "full clipped" (Cols.str "all") "1=1" crs 5
        (fun _ _ => ⟨status, some fs⟩)
      = (Except.ok ⟨fs, crs⟩, 1)
    ∧ (GeoDataFrame.mk fs crs).features.length = fs.length := by
  refine ⟨?_, rfl⟩
  simp only [get_boundaries,
    show resolve_geom "lsoa" = Except.ok ("Census_Boundaries/",
      "Lower_Super_Output_Areas_December_2011_Boundaries/", censusFields) from rfl,
    show _check_layer_types "full clipped" = Except.ok 0 from rfl,
    show _format_params (Cols.str "all") censusFields "1=1" crs 5
      = Except.ok (mkParams "*" "1=1" crs 5) from rfl]
  rw [if_pos hcrs, if_pos (by norm_num : (1 : Int) ≤ 5 ∧ (5 : Int) ≤ 7)]
  simp [hs]

/-- Witness for C1: the mocked call of the spec, with CRS 27700 and a
three-feature mock body, returns a collection with CRS 27700 and count 3. -/
theorem get_boundaries_success_spec_witness :
    get_boundaries "lsoa" "full clipped" (Cols.str "all") "1=1" 27700 5
        (fun _ _ => HttpResponse.mk 200 (some [0, 1, 2]))
      = (Except.ok (GeoDataFrame.mk [0, 1, 2] 27700), 1)
    ∧ (GeoDataFrame.mk ([0, 1, 2] : List Nat) 27700).features.length
      = [0, 1, 2].length :=
  get_boundaries_success_spec [0, 1, 2] 200 27700 (by omega) (by decide)

/-- C9: for every HTTP response with a non-success status, `get_boundaries`
performs exactly one request (no retry) and fails with an HTTP error carrying
the status code; no feature collection, partial or otherwise, is returned. -/
theorem get_boundaries_http_error_spec {α : Type} (status : Nat)
    (body : Option (List α)) (h4 : 400 ≤ status) (h6 : status < 600) :
    get_boundaries "lsoa" "full clipped" (Cols.str "all") "1=1" 27700 5
        (fun _ _ => ⟨status, body⟩)
      = (Except.error (ApiError.httpError status), 1) := by
  simp only [get_boundaries,
    show resolve_geom "lsoa" = Except.ok ("Census_Boundaries/",
      "Lower_Super_Output_Areas_December_2011_Boundaries/", censusFields) from rfl,
    show _check_layer_types "full clipped" = Except.ok 0 from rfl,
    show _format_params (Cols.str "all") censusFields "1=1" 27700 5
      = Except.ok (mkParams "*" "1=1" 27700 5) from rfl]
  rw [if_pos (by decide : epsg.contains (27700 : Int) = true),
    if_pos (by norm_num : (1 : Int) ≤ 5 ∧ (5 : Int) ≤ 7)]
  simp [h4, h6]

/-- Witness for C9 at the concrete status 404 with an arbitrary body. -/
theorem get_boundaries_http_error_spec_witness :
    get_boundaries "lsoa" "full clipped" (Cols.str "all") "1=1" 27700 5
        (fun _ _ => HttpResponse.mk 404 (none : Option (List Nat)))
      = (Except.error (ApiError.httpError 404), 1) :=
  get_boundaries_http_error_spec 404 none (by omega) (by omega)

/-- C7: for every explicit column list with an element whose lowercase form is
not in `fields`, `_format_params` fails with the unsupported-columns
`ValueError`, and an otherwise-valid `get_boundaries` call with that list
fails with that error having performed zero HTTP requests. -/
theorem format_params_bad_cols_spec {α : Type} (l : List String)
    (geom_type layer_type boundary geom : String) (fields : List String)
    (layernum : Nat) (whereCl : String) (crs precision : Int)
    (hbad : (l.map pyLower).all (fun c => fields.contains c) = false)
    (hg : resolve_geom geom_type = Except.ok (boundary, geom, fields))
    (hl : _check_layer_types layer_type = Except.ok layernum)
    (hcrs : epsg.contains crs = true)
    (hp : 1 ≤ precision ∧ precision ≤ 7) :
    _format_params (Cols.list l) fields whereCl crs precision
      = Except.error (ApiError.valueError (colsErrMsg fields))
    ∧ ∀ http : String → List (String × PValue) → HttpResponse α,
        get_boundaries geom_type layer_type (Cols.list l) whereCl crs precision
            http
          = (Except.error (ApiError.valueError (colsErrMsg fields)), 0) := by
  have hfmt : _format_params (Cols.list l) fields whereCl crs precision
      = Except.error (ApiError.valueError (colsErrMsg fields)) := by
    simp only [_format_params]
    rw [if_neg (by rw [hbad]; exact Bool.false_ne_true)]
  refine ⟨hfmt, fun http => ?_⟩
  simp only [get_boundaries, hg, hl, hfmt]
  rw [if_pos hcrs, if_pos hp]

/-- Witness for C7: the list `["not_a_field"]` against the lsoa call. -/
theorem format_params_bad_cols_spec_witness :
    _format_params (Cols.list ["not_a_field"]) censusFields "1=1" 27700 5
      = Except.error (ApiError.valueError (colsErrMsg censusFields))
    ∧ ∀ http : String → List (String × PValue) → HttpResponse Nat,
        get_boundaries "lsoa" "full clipped" (Cols.list ["not_a_field"]) "1=1"
            27700 5 http
          = (Except.error (ApiError.valueError (colsErrMsg censusFields)), 0) :=
  format_params_bad_cols_spec ["not_a_field"] "lsoa" "full clipped"
    "Census_Boundaries/" "Lower_Super_Output_Areas_December_2011_Boundaries/"
    censusFields 0 "1=1" 27700 5 (by decide) rfl rfl (by decide)
    (by norm_num)

/-- C4 counterexample: with valid geometry and layer types but an invalid
column list, the call fails with a validation error before any network
request even though `crs = 27700` is supported and `precision = 5` lies in
`[1, 7]` — refuting the claimed "if and only if" over all calls. -/
theorem fetch_validation_counterexample :
    (get_boundaries "lsoa" "full clipped" (Cols.list ["not_a_field"]) "1=1"
        27700 5 (fun _ _ => HttpResponse.mk 200 (some ([] : List Nat)))).1
      = Except.error (ApiError.valueError (colsErrMsg censusFields))
    ∧ (get_boundaries "lsoa" "full clipped" (Cols.list ["not_a_field"]) "1=1"
        27700 5 (fun _ _ => HttpResponse.mk 200 (some ([] : List Nat)))).2 = 0
    ∧ epsg.contains (27700 : Int) = true
    ∧ (1 ≤ (5 : Int) ∧ (5 : Int) ≤ 7) := by
  refine ⟨rfl, rfl, rfl, by norm_num⟩

/-- C4 (amended): for calls with valid geometry and layer types whose columns
argument passes column validation, the call fails with a `ValueError` before
any network request exactly when `crs` is unsupported or `precision` lies
outside `[1, 7]`. -/
theorem fetch_validation_spec {α : Type} (geom_type layer_type : String)
    (cols : Cols) (whereCl : String) (crs precision : Int)
    (boundary geom : String) (fields : List String) (layernum : Nat)
    (http : String → List (String × PValue) → HttpResponse α)
    (hg : resolve_geom geom_type = Except.ok (boundary, geom, fields))
    (hl : _check_layer_types layer_type = Except.ok layernum)
    (hc : colsOk cols fields = true) :
    ((∃ m, (get_boundaries geom_type layer_type cols whereCl crs precision
          http).1 = Except.error (ApiError.valueError m))
      ∧ (get_boundaries geom_type layer_type cols whereCl crs precision
          http).2 = 0)
    ↔ (epsg.contains crs = false ∨ ¬ (1 ≤ precision ∧ precision ≤ 7)) := by
  by_cases hcrs : epsg.contains crs = true
  · by_cases hp : 1 ≤ precision ∧ precision ≤ 7
    · obtain ⟨p, hpok⟩ :=
        format_params_ok_of_colsOk cols fields whereCl crs precision hc
      have h2 : (get_boundaries geom_type layer_type cols whereCl crs precision
          http).2 = 1 := by
        simp only [get_boundaries, hg, hl, hpok]
        rw [if_pos hcrs, if_pos hp]
        by_cases hh : 400 ≤ (http (requestUrl boundary geom layernum) p).status
            ∧ (http (requestUrl boundary geom layernum) p).status < 600
        · rw [if_pos hh]
        · rw [if_neg hh]
          cases (http (requestUrl boundary geom layernum) p).features <;> rfl
      constructor
      · rintro ⟨-, hzero⟩
        rw [h2] at hzero
        exact absurd hzero one_ne_zero
      · rintro (h | h)
        · rw [h] at hcrs
          exact Bool.noConfusion hcrs
        · exact absurd hp h
    · have hres : get_boundaries geom_type layer_type cols whereCl crs precision
          http = (Except.error (ApiError.valueError precisionErrMsg), 0) := by
        simp only [get_boundaries, hg, hl]
        rw [if_pos hcrs, if_neg hp]
      rw [hres]
      simp [hp]
  · have hres : get_boundaries geom_type layer_type cols whereCl crs precision
        http = (Except.error (ApiError.valueError crsErrMsg), 0) := by
      simp only [get_boundaries, hg, hl]
      rw [if_neg hcrs]
    have hcrs' : epsg.contains crs = false := by simpa using hcrs
    have hmem : crs ∉ epsg := by simpa using hcrs'
    rw [hres]
    simp [hcrs', hmem]

/-- Witness for C4 (amended): the lsoa call with `precision = 0` fails before
any request, and the equivalence instantiates to a true biconditional. -/
theorem fetch_validation_spec_witness :
    ((∃ m, (get_boundaries "lsoa" "full clipped" (Cols.str "all") "1=1" 27700 0
          (fun _ _ => HttpResponse.mk 200 (some ([] : List Nat)))).1
        = Except.error (ApiError.valueError m))
      ∧ (get_boundaries "lsoa" "full clipped" (Cols.str "all") "1=1" 27700 0
          (fun _ _ => HttpResponse.mk 200 (some ([] : List Nat)))).2 = 0)
    ↔ (epsg.contains (27700 : Int) = false ∨ ¬ (1 ≤ (0 : Int) ∧ (0 : Int) ≤ 7)) :=
  fetch_validation_spec "lsoa" "full clipped" (Cols.str "all") "1=1" 27700 0
    "Census_Boundaries/" "Lower_Super_Output_Areas_December_2011_Boundaries/"
    censusFields 0 (fun _ _ => HttpResponse.mk 200 (some ([] : List Nat)))
    rfl rfl rfl

end OnsGeoportal
